import Mathlib

/-!
Shallow embedding of `swebench/harness/docker_utils.py` and verification of
the specification's claims about it.

External effects (Docker API calls, local file I/O, process spawning) are
modelled by oracles describing the outcome of each external step, together
with an explicit trace of the calls the code performs.  Machinery that the
source delegates to the OS (fork/join semantics of `multiprocessing`,
POSIX path splitting from `os.path` / `pathlib`) is translated directly
from its documented semantics, as noted on each definition.
-/

namespace DockerUtils

/-- Python exception values that flow through the module: `ValueError`
raised by the destination check, `TimeoutError` raised on the timeout
path, and an arbitrary other exception identified by a numeric tag
(its message text abstracted by the tag). -/
inductive Exc where
  | valueError (msg : String)
  | timeoutError (msg : String)
  | generic (tag : Nat)
deriving DecidableEq, Repr

/- ### Timeout-bounded executor: `exec_run_with_timeout` -/

/-- The closure state of `exec_run_with_timeout`: the three variables
`exec_result`, `exec_id`, `exception` declared in the parent and
referenced by the nested `run_command` via `nonlocal`. -/
structure ExecState where
  exec_result : Option String
  exec_id : Option String
  exception : Option Exc
deriving DecidableEq, Repr

/-- Behaviour of one execution of `run_command` in the child: how many
seconds the blocking Docker API calls take, and their outcome — either
an exception, or the pair (exec id returned by `exec_create`, output
returned by `exec_start`). -/
structure ChildBehavior where
  duration : Nat
  outcome : Except Exc (String × String)
deriving Repr

/-- The nested `run_command` of `exec_run_with_timeout`, acting on the
copy of the closure state visible to the process that runs it: on
success it stores the exec id and the captured output, on exception it
stores the exception. -/
def run_command (b : ChildBehavior) (s : ExecState) : ExecState :=
  match b.outcome with
  | Except.ok p => { s with exec_id := some p.1, exec_result := some p.2 }
  | Except.error e => { s with exception := some e }

/-- Initial closure state: `exec_result = None`, `exec_id = None`,
`exception = None`. -/
def initState : ExecState := ⟨none, none, none⟩

/-- Semantics of `multiprocessing.Process(target=run_command)`: the child
process executes `run_command` on its own copy of the parent memory, so
the mutations `run_command` makes through `nonlocal` are confined to the
child. After `process.join(...)` the parent reads its OWN, unchanged,
closure state. This definition records that fact: the parent state after
the join is the state from before the spawn. -/
def parentStateAfterJoin (_b : ChildBehavior) (s : ExecState) : ExecState := s

/-- The closure state as the child process left it (what the parent would
have observed had `run_command` run in a shared-memory thread instead of
a separate process). -/
def childFinalState (b : ChildBehavior) : ExecState := run_command b initState

/-- What `exec_run_with_timeout` gives back to the caller: the returned
value or raised exception, plus whether `process.terminate()` was
invoked on the child. -/
structure ExecRunOutput where
  result : Except Exc (Option String)
  terminated : Bool
deriving Repr

/-- `exec_run_with_timeout(container, cmd, timeout)`: spawn
`run_command` in a separate process, `process.join(timeout)`; if the
process is still alive (the child behaviour runs longer than a present
timeout) terminate it and raise
`TimeoutError(f"Command '{cmd}' timed out after {timeout} seconds")`;
otherwise re-raise `exception` if set, else return `exec_result` —
both read from the parent side of the fork. -/
def exec_run_with_timeout (b : ChildBehavior) (cmd : String) (timeout : Option Nat) :
    ExecRunOutput :=
  let parent := parentStateAfterJoin b initState
  match timeout with
  | some t =>
    if t < b.duration then
      ⟨Except.error (Exc.timeoutError
        ("Command \x27" ++ cmd ++ "\x27 timed out after " ++ toString t ++ " seconds")), true⟩
    else
      match parent.exception with
      | some e => ⟨Except.error e, false⟩
      | none => ⟨Except.ok parent.exec_result, false⟩
  | none =>
    match parent.exception with
    | some e => ⟨Except.error e, false⟩
    | none => ⟨Except.ok parent.exec_result, false⟩

/-- C1: the claim says that when the isolated unit finishes within the
deadline, `exec_run_with_timeout` returns the command's captured output.
The code does not: `run_command` stores the output in the child
process's copy of the closure, so the parent returns its own untouched
`exec_result`, i.e. `None`, even though the child did capture the
output (second conjunct). Evaluated at a command taking 1 second whose
output is "hi\n", against a 60-second deadline. -/
theorem exec_output_lost_on_success :
    exec_run_with_timeout ⟨1, Except.ok ("execid0", "hi\n")⟩ "echo hi" (some 60)
      = ⟨Except.ok none, false⟩
    ∧ (childFinalState ⟨1, Except.ok ("execid0", "hi\n")⟩).exec_result = some "hi\n" := by
  constructor
  · rfl
  · rfl

/-- C2: the claim says that an error raised inside the isolated unit
before the deadline is re-raised to the caller unchanged. The code does
not: `run_command` stores the exception in the child process's copy of
the closure, so the parent's `exception` stays `None` and the call
returns `None` successfully, even though the child did record the
exception (second conjunct). Evaluated at a command whose remote
invocation raises exception #7 after 1 second, 60-second deadline. -/
theorem exec_exception_lost :
    exec_run_with_timeout ⟨1, Except.error (Exc.generic 7)⟩ "bad cmd" (some 60)
      = ⟨Except.ok none, false⟩
    ∧ (childFinalState ⟨1, Except.error (Exc.generic 7)⟩).exception = some (Exc.generic 7) := by
  constructor
  · rfl
  · rfl

/-- C3: with a present deadline `t` and a child still running when it
elapses (`t < b.duration`), `exec_run_with_timeout` terminates the
local process and raises a `TimeoutError` whose message carries the
command text and the deadline value. -/
theorem exec_timeout_terminates_and_raises (b : ChildBehavior) (cmd : String) (t : Nat)
    (h : t < b.duration) :
    exec_run_with_timeout b cmd (some t)
      = ⟨Except.error (Exc.timeoutError
          ("Command \x27" ++ cmd ++ "\x27 timed out after " ++ toString t ++ " seconds")), true⟩ := by
  simp [exec_run_with_timeout, h]

/-- Witness for C3: a command that would run 300 seconds against a
1-second deadline times out. -/
theorem exec_timeout_terminates_and_raises_witness :
    1 < (⟨300, Except.ok ("i", "o")⟩ : ChildBehavior).duration
    ∧ exec_run_with_timeout ⟨300, Except.ok ("i", "o")⟩ "sleep 300" (some 1)
      = ⟨Except.error (Exc.timeoutError
          ("Command \x27" ++ "sleep 300" ++ "\x27 timed out after " ++ toString 1 ++ " seconds")), true⟩ :=
  ⟨by decide, exec_timeout_terminates_and_raises ⟨300, Except.ok ("i", "o")⟩ "sleep 300" 1 (by decide)⟩

/-- C8: with the no-timeout sentinel (`timeout=None`), no deadline is
applied: for every child behaviour, of any duration, the join blocks
until the child finishes, the child is never terminated and no timeout
failure is raised — the call returns normally. -/
theorem exec_no_timeout_never_times_out (b : ChildBehavior) (cmd : String) :
    exec_run_with_timeout b cmd none = ⟨Except.ok none, false⟩ := by
  rfl

/- ### POSIX path helpers used by `copy_to_container`

`dst` reaches the module as a `pathlib.Path`; rendering it in an f-string
gives its normalized string form, on which `os.path.dirname`,
`Path.parent`, `Path.name` and `Path.with_suffix` act as below. -/

/-- `os.path.dirname` for POSIX paths: the part of the path before its
final slash (the head up to and including the last slash, with trailing
slashes stripped unless the head consists only of slashes); the empty
string when the path contains no slash. -/
def dirname (p : String) : String :=
  let cs := p.toList
  if cs.contains (Char.ofNat 47) then
    let head := (cs.reverse.dropWhile (fun c => c ≠ Char.ofNat 47)).reverse
    if head.all (fun c => c = Char.ofNat 47) then String.mk head
    else String.mk ((head.reverse.dropWhile (fun c => c = Char.ofNat 47)).reverse)
  else ""

/-- `pathlib.PurePosixPath(p).parent` rendered as a string: the dirname,
or "." when the path has no directory component. -/
def pathParent (p : String) : String :=
  let d := dirname p
  if d = "" then "." else d

/-- `pathlib.PurePosixPath(p).name`: the final path component (the text
after the last slash). -/
def baseName (p : String) : String :=
  String.mk ((p.toList.reverse.takeWhile (fun c => c ≠ Char.ofNat 47)).reverse)

/-- The stem of a file name (`pathlib` semantics): the name with its
final dotted suffix removed; a name with no dot, or whose only dot is
its leading character, has no suffix and is its own stem. -/
def stemOf (name : String) : String :=
  let cs := name.toList
  let afterDot := cs.reverse.takeWhile (fun c => c ≠ Char.ofNat 46)
  if afterDot.length = cs.length then name
  else if cs.length - afterDot.length - 1 = 0 then name
  else String.mk (cs.take (cs.length - afterDot.length - 1))

/-- `pathlib.PurePosixPath(p).with_suffix(".tar")` rendered as a string:
the path with its final component replaced by that component's stem
followed by ".tar". -/
def with_suffix_tar (p : String) : String :=
  let d := dirname p
  let newName := stemOf (baseName p) ++ ".tar"
  if d = "" then newName
  else if d.toList.getLastD (Char.ofNat 32) = Char.ofNat 47 then d ++ newName
  else d ++ "/" ++ newName

/- ### Archive-based file injector: `copy_to_container` -/

/-- The external operations `copy_to_container` performs, in source
order: write the local tar archive (`tarfile.open` + `tar.add`), read
it back (`open` + `read`), run `mkdir -p` in the container, send the
archive (`container.put_archive`), run the extraction command, unlink
the local archive, run the remote cleanup command. -/
inductive CopyStep where
  | tarWrite
  | tarRead
  | mkdirExec
  | putArchive
  | extractExec
  | unlinkLocal
  | rmExec
deriving DecidableEq, Repr, Fintype

/-- Position of each step in the source's execution order. -/
def stepIdx : CopyStep → Nat
  | CopyStep.tarWrite => 0
  | CopyStep.tarRead => 1
  | CopyStep.mkdirExec => 2
  | CopyStep.putArchive => 3
  | CopyStep.extractExec => 4
  | CopyStep.unlinkLocal => 5
  | CopyStep.rmExec => 6

/-- Trace entries: local file I/O and the two container-handle
capabilities (`exec_run` and `put_archive`). -/
inductive Event where
  | localTarWrite (tarPath : String) (arcname : String)
  | localTarRead (tarPath : String)
  | execRun (cmd : String)
  | putArchive (destDir : String)
  | localUnlink (path : String)
deriving DecidableEq, Repr

/-- Run one external step of `copy_to_container` under the failure
oracle ω: record the attempted operation in the trace; if the oracle
makes this step raise, propagate that exception and stop, otherwise
continue with the rest of the function. -/
def runStep (ω : CopyStep → Option Exc) (s : CopyStep) (ev : Event)
    (k : Unit → Except Exc Unit × List Event) : Except Exc Unit × List Event :=
  match ω s with
  | some e => (Except.error e, [ev])
  | none =>
    let r := k ()
    (r.1, ev :: r.2)

/-- `copy_to_container(container, src, dst)`: reject a destination whose
`os.path.dirname` is empty with
`ValueError(f"Destination path parent directory cannot be empty!, dst: {dst}")`
before doing anything else; then stage `src` into `src.with_suffix(".tar")`
with entry name `src.name`, read the archive bytes, `mkdir -p {dst.parent}`
in the container, `put_archive(os.path.dirname(dst), data)`, run
`tar -xf {dst}.tar -C {dst.parent}`, unlink the local archive, and run
`rm {dst}.tar` — each step unguarded, so its exception propagates. -/
def copy_to_container (ω : CopyStep → Option Exc) (src dst : String) :
    Except Exc Unit × List Event :=
  if dirname dst = "" then
    (Except.error (Exc.valueError
      ("Destination path parent directory cannot be empty!, dst: " ++ dst)), [])
  else
    let tar_path := with_suffix_tar src
    runStep ω CopyStep.tarWrite (Event.localTarWrite tar_path (baseName src)) fun _ =>
    runStep ω CopyStep.tarRead (Event.localTarRead tar_path) fun _ =>
    runStep ω CopyStep.mkdirExec (Event.execRun ("mkdir -p " ++ pathParent dst)) fun _ =>
    runStep ω CopyStep.putArchive (Event.putArchive (dirname dst)) fun _ =>
    runStep ω CopyStep.extractExec
      (Event.execRun ("tar -xf " ++ dst ++ ".tar -C " ++ pathParent dst)) fun _ =>
    runStep ω CopyStep.unlinkLocal (Event.localUnlink tar_path) fun _ =>
    runStep ω CopyStep.rmExec (Event.execRun ("rm " ++ dst ++ ".tar")) fun _ =>
    (Except.ok (), [])

/-- C4: for a valid destination, whichever step of `copy_to_container`
fails first — archive write, archive read-back, remote directory
creation, transmission, extraction, local cleanup or remote cleanup —
its exception is returned to the caller unchanged; no failure is masked
as success. -/
theorem copy_first_failure_propagates (ω : CopyStep → Option Exc) (src dst : String)
    (s : CopyStep) (e : Exc) (hdst : dirname dst ≠ "")
    (hfail : ω s = some e)
    (hbefore : ∀ s2, stepIdx s2 < stepIdx s → ω s2 = none) :
    (copy_to_container ω src dst).1 = Except.error e := by
  cases s with
  | tarWrite =>
    simp [copy_to_container, runStep, hdst, hfail]
  | tarRead =>
    have h0 := hbefore CopyStep.tarWrite (by decide)
    simp [copy_to_container, runStep, hdst, h0, hfail]
  | mkdirExec =>
    have h0 := hbefore CopyStep.tarWrite (by decide)
    have h1 := hbefore CopyStep.tarRead (by decide)
    simp [copy_to_container, runStep, hdst, h0, h1, hfail]
  | putArchive =>
    have h0 := hbefore CopyStep.tarWrite (by decide)
    have h1 := hbefore CopyStep.tarRead (by decide)
    have h2 := hbefore CopyStep.mkdirExec (by decide)
    simp [copy_to_container, runStep, hdst, h0, h1, h2, hfail]
  | extractExec =>
    have h0 := hbefore CopyStep.tarWrite (by decide)
    have h1 := hbefore CopyStep.tarRead (by decide)
    have h2 := hbefore CopyStep.mkdirExec (by decide)
    have h3 := hbefore CopyStep.putArchive (by decide)
    simp [copy_to_container, runStep, hdst, h0, h1, h2, h3, hfail]
  | unlinkLocal =>
    have h0 := hbefore CopyStep.tarWrite (by decide)
    have h1 := hbefore CopyStep.tarRead (by decide)
    have h2 := hbefore CopyStep.mkdirExec (by decide)
    have h3 := hbefore CopyStep.putArchive (by decide)
    have h4 := hbefore CopyStep.extractExec (by decide)
    simp [copy_to_container, runStep, hdst, h0, h1, h2, h3, h4, hfail]
  | rmExec =>
    have h0 := hbefore CopyStep.tarWrite (by decide)
    have h1 := hbefore CopyStep.tarRead (by decide)
    have h2 := hbefore CopyStep.mkdirExec (by decide)
    have h3 := hbefore CopyStep.putArchive (by decide)
    have h4 := hbefore CopyStep.extractExec (by decide)
    have h5 := hbefore CopyStep.unlinkLocal (by decide)
    simp [copy_to_container, runStep, hdst, h0, h1, h2, h3, h4, h5, hfail]

/-- Failure oracle for the C4 witness: the transmission step
(`put_archive`) raises exception #3; every other step succeeds. -/
def failAtPut : CopyStep → Option Exc :=
  fun s => if s = CopyStep.putArchive then some (Exc.generic 3) else none

/-- Witness for C4: with the transmission step failing first, copying
"a/f.py" to "d/f.py" surfaces exactly that exception. -/
theorem copy_first_failure_propagates_witness :
    (dirname "d/f.py" ≠ ""
      ∧ failAtPut CopyStep.putArchive = some (Exc.generic 3)
      ∧ ∀ s2, stepIdx s2 < stepIdx CopyStep.putArchive → failAtPut s2 = none)
    ∧ (copy_to_container failAtPut "a/f.py" "d/f.py").1 = Except.error (Exc.generic 3) :=
  ⟨⟨by decide, by decide, by decide⟩,
    copy_first_failure_propagates failAtPut "a/f.py" "d/f.py" CopyStep.putArchive
      (Exc.generic 3) (by decide) (by decide) (by decide)⟩

/-- C6: a destination with an empty parent directory component (a bare
filename) makes `copy_to_container` raise the `ValueError` immediately:
the result is that exception and the trace is empty — no local I/O was
performed and no capability of the container handle was invoked,
whatever the failure oracle, i.e. whatever the environment would have
done on any later step. -/
theorem copy_rejects_bare_filename (ω : CopyStep → Option Exc) (src dst : String)
    (h : dirname dst = "") :
    copy_to_container ω src dst =
      (Except.error (Exc.valueError
        ("Destination path parent directory cannot be empty!, dst: " ++ dst)), []) := by
  simp [copy_to_container, h]

/-- Witness for C6: the bare filename "file.txt" as destination is
rejected before any I/O. -/
theorem copy_rejects_bare_filename_witness :
    dirname "file.txt" = ""
    ∧ copy_to_container (fun _ => none) "a/file.txt" "file.txt" =
        (Except.error (Exc.valueError
          ("Destination path parent directory cannot be empty!, dst: " ++ "file.txt")), []) :=
  ⟨by decide, copy_rejects_bare_filename (fun _ => none) "a/file.txt" "file.txt" (by decide)⟩

/- ### Inline content writer: `write_to_container` -/

/-- Appending of strings is associative. -/
theorem string_append_assoc (a b c : String) : a ++ b ++ c = a ++ (b ++ c) := by
  cases a with | mk la =>
  cases b with | mk lb =>
  cases c with | mk lc =>
  show String.mk ((la ++ lb) ++ lc) = String.mk (la ++ (lb ++ lc))
  rw [List.append_assoc]

/-- The fixed here-document delimiter of the module (chosen to differ
from the delimiters appearing in dataset content). -/
def HEREDOC_DELIMITER : String := "EOF_1399519320"

/-- The shell command `write_to_container` builds:
`f"cat <<'{HEREDOC_DELIMITER}' > {dst}\n{data}\n{HEREDOC_DELIMITER}"`. -/
def writeCommand (data dst : String) : String :=
  "cat <<\x27" ++ HEREDOC_DELIMITER ++ "\x27 > " ++ dst ++ "\n" ++ data ++ "\n"
    ++ HEREDOC_DELIMITER

/-- `write_to_container(container, data, dst)`: build the here-document
command and pass it to `container.exec_run` once; the exec result
(modelled by the oracle `execOut`) is discarded and the function
returns nothing. -/
def write_to_container (execOut : String → Nat) (data dst : String) :
    Unit × List Event :=
  let command := writeCommand data dst
  let _ := execOut command
  ((), [Event.execRun command])

/-- C9: for every content string and destination path,
`write_to_container` builds exactly the command
`cat <<'EOF_1399519320' > <dst>`, newline, the content, newline,
`EOF_1399519320` (first conjunct, with the delimiter written out);
executes it once via the handle's run-command capability (second
conjunct: the trace is that single call and the value returned is
unit); and does not inspect the value the handle returns (third
conjunct: the outcome is the same under any two exec oracles). -/
theorem write_builds_exact_heredoc (o1 o2 : String → Nat) (data dst : String) :
    writeCommand data dst
      = "cat <<\x27EOF_1399519320\x27 > " ++ dst ++ "\n" ++ data ++ "\nEOF_1399519320"
    ∧ write_to_container o1 data dst = ((), [Event.execRun (writeCommand data dst)])
    ∧ write_to_container o1 data dst = write_to_container o2 data dst := by
  refine ⟨?_, rfl, rfl⟩
  exact string_append_assoc
    ("cat <<\x27EOF_1399519320\x27 > " ++ dst ++ "\n" ++ data) "\n" "EOF_1399519320"

/- ### Image remover: `remove_image` -/

/-- The three reporting modes of `remove_image`, dispatched in the
source on the shape of the `logger` argument: `None` (default mode,
print to stdout), the string "quiet", or a logger object (sink). -/
inductive ReportMode where
  | default
  | quiet
  | sink
deriving DecidableEq, Repr

/-- Outcome of the underlying `client.images.remove` call: success, the
`docker.errors.ImageNotFound` exception, or any other exception. -/
inductive RemoveOutcome where
  | ok
  | imageNotFound
  | failure (e : Exc)
deriving Repr

/-- What a call to `remove_image` produces: the returned value or
re-raised exception, the lines printed to standard output, the lines
sent to the logging sink, and the removal calls made against the Docker
client as (image id, force flag) pairs. -/
structure RemoveResult where
  result : Except Exc Unit
  stdout : List String
  sinkLog : List String
  calls : List (String × Bool)
deriving Repr

/-- Where `log_info` (and `log_error`, which the source binds to the
same target in every mode) sends a message: default mode binds them to
`print`, quiet mode to a no-op, sink mode to `logger.info`. The pair is
(stdout lines, sink lines). -/
def logChan : ReportMode → String → List String × List String
  | ReportMode.default, msg => ([msg], [])
  | ReportMode.quiet, _ => ([], [])
  | ReportMode.sink, msg => ([], [msg])

/-- The `raise_error` flag of `remove_image`: set in default and quiet
modes, cleared in sink mode. -/
def raiseErrorFlag : ReportMode → Bool
  | ReportMode.default => true
  | ReportMode.quiet => true
  | ReportMode.sink => false

/-- `f"Attempting to remove image {image_id}..."`. -/
def attemptMsg (image_id : String) : String :=
  "Attempting to remove image " ++ image_id ++ "..."

/-- `f"Image {image_id} removed."`. -/
def removedMsg (image_id : String) : String :=
  "Image " ++ image_id ++ " removed."

/-- `f"Image {image_id} not found, removing has no effect."`. -/
def notFoundMsg (image_id : String) : String :=
  "Image " ++ image_id ++ " not found, removing has no effect."

/-- Rendering of a caught exception, modelling Python str(e). -/
def excMessage : Exc → String
  | Exc.valueError m => m
  | Exc.timeoutError m => m
  | Exc.generic tag => "exception #" ++ toString tag

/-- `f"Failed to remove image {image_id}: {e}\n{traceback.format_exc()}"`;
the traceback text, runtime data, is passed in as `tb`. -/
def failedMsg (image_id : String) (e : Exc) (tb : String) : String :=
  "Failed to remove image " ++ image_id ++ ": " ++ excMessage e ++ "\n" ++ tb

/-- `remove_image(client, image_id, logger)`: select the log targets and
`raise_error` from the mode; log the attempt message; call
`client.images.remove(image_id, force=True)`. On success log the
removed message; on `ImageNotFound` log the not-found message and
return normally; on any other exception re-raise it when `raise_error`
is set (reaching the `raise` before any error logging), otherwise log
the failure message and return normally. -/
def remove_image (outcome : RemoveOutcome) (tb : String) (image_id : String)
    (mode : ReportMode) : RemoveResult :=
  let i1 := logChan mode (attemptMsg image_id)
  match outcome with
  | RemoveOutcome.ok =>
    let i2 := logChan mode (removedMsg image_id)
    ⟨Except.ok (), i1.1 ++ i2.1, i1.2 ++ i2.2, [(image_id, true)]⟩
  | RemoveOutcome.imageNotFound =>
    let i2 := logChan mode (notFoundMsg image_id)
    ⟨Except.ok (), i1.1 ++ i2.1, i1.2 ++ i2.2, [(image_id, true)]⟩
  | RemoveOutcome.failure e =>
    if raiseErrorFlag mode then
      ⟨Except.error e, i1.1, i1.2, [(image_id, true)]⟩
    else
      let i2 := logChan mode (failedMsg image_id e tb)
      ⟨Except.ok (), i1.1 ++ i2.1, i1.2 ++ i2.2, [(image_id, true)]⟩

/-- C5 counterexample: the claim says that in default mode a failure
other than image-not-found is re-raised AFTER having been printed. At a
concrete failing removal in default mode, the exception is indeed
re-raised, but standard output holds only the attempt message: the
failure message was never printed (`raise e` precedes `log_error`). -/
theorem remove_image_default_error_unprinted :
    (remove_image (RemoveOutcome.failure (Exc.generic 0)) "tb" "img"
        ReportMode.default).result = Except.error (Exc.generic 0)
    ∧ (remove_image (RemoveOutcome.failure (Exc.generic 0)) "tb" "img"
        ReportMode.default).stdout = [attemptMsg "img"]
    ∧ failedMsg "img" (Exc.generic 0) "tb"
        ∉ (remove_image (RemoveOutcome.failure (Exc.generic 0)) "tb" "img"
            ReportMode.default).stdout := by
  refine ⟨rfl, rfl, ?_⟩
  decide

/-- C5 (amended): in default mode, informational messages go to
standard output (and nothing to a sink), and every failure other than
image-not-found is re-raised to the caller unchanged — without the
failure having been printed: standard output then holds only the
attempt message. -/
theorem remove_image_default_mode (image_id tb : String) (e : Exc) :
    (remove_image RemoveOutcome.ok tb image_id ReportMode.default).stdout
      = [attemptMsg image_id, removedMsg image_id]
    ∧ (remove_image RemoveOutcome.ok tb image_id ReportMode.default).sinkLog = []
    ∧ remove_image (RemoveOutcome.failure e) tb image_id ReportMode.default
      = ⟨Except.error e, [attemptMsg image_id], [], [(image_id, true)]⟩ := by
  refine ⟨rfl, rfl, rfl⟩

/-- C7: removing a nonexistent image never raises: in each of the three
reporting modes the `ImageNotFound` outcome yields a normal return (the
not-found case is handled as a successful no-op). -/
theorem remove_image_not_found_never_raises (image_id tb : String) (mode : ReportMode) :
    (remove_image RemoveOutcome.imageNotFound tb image_id mode).result
      = Except.ok () := by
  cases mode <;> rfl

/-- C10: in every reporting mode and for every removal outcome,
`remove_image` makes exactly one removal call against the client, and
that call carries `force=True`. -/
theorem remove_image_always_forced (outcome : RemoveOutcome) (tb image_id : String)
    (mode : ReportMode) :
    (remove_image outcome tb image_id mode).calls = [(image_id, true)] := by
  cases outcome with
  | ok => rfl
  | imageNotFound => rfl
  | failure e => cases mode <;> rfl

end DockerUtils
